import Mathlib

/-!
# Shallow embedding of `src/FormAutomation.js`

This file embeds the form-submission workflow of `FormAutomation.js` in Lean 4
and proves properties of the embedding.

Modelling conventions:
* JavaScript errors are represented by their message string (`JsError`).
* Asynchronous page operations are modelled by an environment (`Env`) that
  fixes the outcome of every driver call; each modelled function returns the
  ordered list of page-level events it performed (`Event`) together with an
  `Except` outcome (an `Except.error` models a thrown exception).
* A JavaScript object holding form data is modelled as an association list
  from selector to value; reading an absent key yields `undefined`, which the
  regexp methods coerce to the string `"undefined"` (ECMAScript `ToString`).
* `console.log` output is not modelled, except for the log lines of
  `retryClick`, which the retry-policy properties refer to (they carry the
  selector and attempt count).
-/

namespace FormAutomation

/-- A JavaScript exception, identified by its message. -/
def JsError : Type := String

instance : DecidableEq JsError := fun a b => String.decEq a b

instance : Repr JsError := instReprString

/-! ## Configuration (`config` object, lines 9–21 of the source) -/

/-- Embeds `config.formUrl`. -/
def formUrl : String := "https://testsite.getjones.com/ExampleForm/"

/-- Embeds `config.selectors.name`. -/
def nameSel : String := "#name"

/-- Embeds `config.selectors.email`. -/
def emailSel : String := "#email"

/-- Embeds `config.selectors.phone`. -/
def phoneSel : String := "#phone"

/-- Embeds `config.selectors.company`. -/
def companySel : String := "#company"

/-- Embeds `config.selectors.employees`. -/
def employeesSel : String := "#employees"

/-- Embeds `config.selectors.submitButton`. -/
def submitButtonSel : String := "button.primary.button"

/-- Embeds `config.thankYouPage`. -/
def thankYouPage : String := "thank-you.html"

/-- Embeds `config.thankYouText`. -/
def thankYouText : List String := ["Thank you!", "You\u0027ll hear from us soon."]

/-- Embeds `Object.values(config.selectors)` in insertion order (`ensureFormLoaded`). -/
def allSelectors : List String :=
  [nameSel, emailSel, phoneSel, companySel, employeesSel, submitButtonSel]

/-! ## String primitives -/

/-- JavaScript `haystack.includes(needle)`: substring test. -/
def strIncludes (haystack needle : String) : Bool :=
  haystack.toList.tails.any (fun t => needle.toList.isPrefixOf t)

/-- The character class `\s` of ECMAScript regular expressions:
`[\t\n\v\f\r \u00A0\u1680\u2000-\u200A\u2028\u2029\u202F\u205F\u3000\uFEFF]`. -/
def jsRegexWhitespace (c : Char) : Bool :=
  c = '\t' || c = '\n' || c = '\x0b' || c = '\x0c' || c = '\r' || c = ' ' ||
  c = '\u00A0' || c = '\u1680' || ('\u2000' ≤ c && c ≤ '\u200A') ||
  c = '\u2028' || c = '\u2029' || c = '\u202F' || c = '\u205F' ||
  c = '\u3000' || c = '\uFEFF'

/-- An ECMAScript line terminator (`\n`, `\r`, U+2028, U+2029); without the
`s` flag, `.` matches every character except these. -/
def jsLineTerminator (c : Char) : Bool :=
  c = '\n' || c = '\r' || c = '\u2028' || c = '\u2029'

/-- Semantics of `/^(?!\s*$).+/.test(s)` (the `nonEmptyRegex` of
`validateFormData`).  Without the `m` flag `^` only matches at position 0 and
`$` only at the end of input, so the regexp matches iff
(1) the negative lookahead succeeds, i.e. `s` does not consist entirely of
`\s`-whitespace (`\s*$` matches at position 0 exactly when it does), and
(2) `.+` matches at position 0, i.e. `s` is nonempty and its first character
is not a line terminator (`.` does not match line terminators). -/
def jsNonEmptyTest (s : String) : Bool :=
  (!s.toList.all jsRegexWhitespace) &&
  (match s.toList with
   | [] => false
   | c :: _ => !jsLineTerminator c)

/-- Semantics of `/@/.test(s)` (the `emailRegex` of `validateFormData`):
`s` contains at least one `@`. -/
def jsEmailTest (s : String) : Bool :=
  s.toList.any (fun c => c = '@')

/-! ## FormData -/

/-- A `formData` JavaScript object mapping selector strings to values;
modelled as an association list. -/
def FormData : Type := List (String × String)

instance : DecidableEq FormData := fun a b => List.hasDecEq a b

/-- Reading `formData[key]`, followed by the implicit `ToString` coercion performed by
`RegExp.prototype.test`: a present key yields its value, an absent key yields
`undefined`, which stringifies to `"undefined"`. -/
def jsLookupStr (fd : FormData) (key : String) : String :=
  match fd.lookup key with
  | some v => v
  | none => "undefined"

/-- The concrete `formData` constructed inside `runAutomation` (lines 233–238). -/
def edenFormData : FormData :=
  [(nameSel, "Eden Oved"),
   (emailSel, "edenoved.swe@gmail.com"),
   (phoneSel, "+972 54-324-1555"),
   (companySel, "Jones Software")]

/-! ## Validator (`validateFormData`, lines 58–86) -/

/-- Error message pushed when the name check fails. -/
def nameMsg : String := "Name cannot be empty."

/-- Error message pushed when the email check fails. -/
def emailMsg : String :=
  "Invalid email format. Email must contain \"@\" character, Please fill out this field."

/-- Error message pushed when the phone check fails. -/
def phoneMsg : String := "Phone number cannot be empty, Please fill out this field."

/-- Error message pushed when the company check fails. -/
def companyMsg : String := "Company name cannot be empty, Please fill out this field."

/-- Embeds `validateFormData(formData)`: runs the four regexp checks in order and
accumulates one message per failed check (the `errors.push` calls). -/
def validateFormData (fd : FormData) : List String :=
  (if jsNonEmptyTest (jsLookupStr fd nameSel) then [] else [nameMsg]) ++
  ((if jsEmailTest (jsLookupStr fd emailSel) then [] else [emailMsg]) ++
   ((if jsNonEmptyTest (jsLookupStr fd phoneSel) then [] else [phoneMsg]) ++
    (if jsNonEmptyTest (jsLookupStr fd companySel) then [] else [companyMsg])))

/-! ## Page-level events and the driver environment -/

/-- An observable operation performed on the page / filesystem, plus the log
lines of `retryClick` (those are the only log lines a property refers to). -/
inductive Event where
  | goto (url : String)
  | ensureDir (dir : String)
  | waitForSelector (sel : String)
  | typeField (sel : String) (value : String)
  | selectOption (sel : String) (value : String)
  | click (sel : String)
  | screenshot (tag : String)
  | waitForNavigation
  | readUrl
  | readContent
  | question
  | closeBrowser
  | logAttempt (n : Nat) (sel : String)
  | logAttemptFailed (n : Nat) (sel : String)
  | logClickSuccess (n : Nat) (sel : String)
  | logAllFailed (retries : Nat) (sel : String)
  deriving DecidableEq, Repr

/-- Holds exactly on events that write to the page: `page.type`,
`page.select` and `page.click`. -/
def Event.isPageWrite : Event → Bool
  | .typeField _ _ => true
  | .selectOption _ _ => true
  | .click _ => true
  | _ => false

/-- Holds exactly on `Event.click` events. -/
def Event.isClick : Event → Bool
  | .click _ => true
  | _ => false

/-- Holds exactly on the `Attempt n: Clicking …` log events of `retryClick`. -/
def Event.isLogAttempt : Event → Bool
  | .logAttempt _ _ => true
  | _ => false

/-- The environment fixes the outcome of every driver call of one run: which
awaited operations resolve (`Except.ok`) and which reject (`Except.error`),
and what `page.url()` / `document.body.innerText` return. -/
structure Env where
  gotoRes : Except JsError Unit
  ensureDirRes : Except JsError Unit
  bodyRes : Except JsError Unit
  waitSel : String → Except JsError Unit
  typeRes : String → Except JsError Unit
  selectRes : Except JsError Unit
  submitWait : Nat → Except JsError Unit
  submitClick : Nat → Except JsError Unit
  navRes : Except JsError Unit
  shotBefore : Except JsError Unit
  shotError : Except JsError Unit
  shotValidationFailed : Except JsError Unit
  url : String
  contentRes : Except JsError String

/-! ## Form loader (`ensureFormLoaded`, lines 113–126) -/

/-- The `for (const selector of allSelectors)` loop of `ensureFormLoaded`:
`await page.waitForSelector(selector, {visible: true, timeout: 20000})` for
each selector in order; the first rejection propagates. -/
def waitAll (env : Env) : List String → List Event × Except JsError Unit
  | [] => ([], Except.ok ())
  | sel :: rest =>
    match env.waitSel sel with
    | Except.error e => ([Event.waitForSelector sel], Except.error e)
    | Except.ok _ =>
      let r := waitAll env rest
      (Event.waitForSelector sel :: r.1, r.2)

/-- Embeds `ensureFormLoaded(page)`: wait for `body` (30s timeout), then for every
selector of `config.selectors` (20s timeout each); errors are logged and
rethrown, hence simply propagate. -/
def ensureFormLoaded (env : Env) : List Event × Except JsError Unit :=
  match env.bodyRes with
  | Except.error e => ([Event.waitForSelector "body"], Except.error e)
  | Except.ok _ =>
    let r := waitAll env allSelectors
    (Event.waitForSelector "body" :: r.1, r.2)

/-! ## Form filler (`fillFormFields`, lines 95–107) -/

/-- Embeds `fillFormFields(page, formData)`: for each `[selector, value]` of
`Object.entries(formData)` in insertion order, wait for the selector (20s)
then `page.type` the value; the first rejection is logged and rethrown. -/
def fillFormFields (env : Env) : FormData → List Event × Except JsError Unit
  | [] => ([], Except.ok ())
  | (sel, v) :: rest =>
    match env.waitSel sel with
    | Except.error e => ([Event.waitForSelector sel], Except.error e)
    | Except.ok _ =>
      match env.typeRes sel with
      | Except.error e =>
        ([Event.waitForSelector sel, Event.typeField sel v], Except.error e)
      | Except.ok _ =>
        let r := fillFormFields env rest
        (Event.waitForSelector sel :: Event.typeField sel v :: r.1, r.2)

/-! ## Click retry (`retryClick`, lines 163–179) -/

/-- The body of `retryClick`'s `for (let attempt = 1; attempt <= retries;
attempt++)` loop, run on the list of remaining attempt numbers.  Each
iteration logs the attempt, awaits visibility (10s), clicks, and on success
returns; a rejection is logged and, when `attempt === retries`, the final
log line (carrying the selector and the attempt count) is emitted and the
underlying error is rethrown.  If the loop exhausts its iterations without a
throw the function returns `undefined`, i.e. succeeds. -/
def retryClickGo (env : Env) (sel : String) (retries : Nat) :
    List Nat → List Event × Except JsError Unit
  | [] => ([], Except.ok ())
  | attempt :: rest =>
    let pre := [Event.logAttempt attempt sel, Event.waitForSelector sel]
    match env.submitWait attempt with
    | Except.error e =>
      let evs := pre ++ [Event.logAttemptFailed attempt sel]
      if attempt = retries then
        (evs ++ [Event.logAllFailed retries sel], Except.error e)
      else
        let r := retryClickGo env sel retries rest
        (evs ++ r.1, r.2)
    | Except.ok _ =>
      match env.submitClick attempt with
      | Except.error e =>
        let evs := pre ++ [Event.click sel, Event.logAttemptFailed attempt sel]
        if attempt = retries then
          (evs ++ [Event.logAllFailed retries sel], Except.error e)
        else
          let r := retryClickGo env sel retries rest
          (evs ++ r.1, r.2)
      | Except.ok _ =>
        (pre ++ [Event.click sel, Event.logClickSuccess attempt sel], Except.ok ())

/-- Embeds `retryClick(page, selector, retries = 3)`. -/
def retryClick (env : Env) (sel : String) (retries : Nat := 3) :
    List Event × Except JsError Unit :=
  retryClickGo env sel retries (List.range' 1 retries)

/-- Attempt `n` of `retryClick` succeeds: both the visibility wait and the
click of that attempt resolve. -/
def attemptOk (env : Env) (n : Nat) : Bool :=
  (match env.submitWait n with | Except.ok _ => true | _ => false) &&
  (match env.submitClick n with | Except.ok _ => true | _ => false)

/-! ## Success detector (`validateThankYouPageContent`, lines 187–212) -/

/-- The message of the `Error` thrown when reading the page content fails. -/
def pageValidationMsg : JsError :=
  "Page validation encountered an issue, process terminated."

/-- Embeds `validateThankYouPageContent(page, screenshotsDir)`:
1. if `page.url()` contains `config.thankYouPage`, return `true`;
2. otherwise read `document.body.innerText`; if that read throws, throw a
   fresh `Error` (`pageValidationMsg`);
3. if every fragment of `config.thankYouText` occurs in the text, return
   `true`; otherwise take a `validation_failed` screenshot (a rejection of
   which propagates) and return `false`. -/
def validateThankYouPageContent (env : Env) : List Event × Except JsError Bool :=
  if strIncludes env.url thankYouPage then
    ([Event.readUrl], Except.ok true)
  else
    match env.contentRes with
    | Except.error _ =>
      ([Event.readUrl, Event.readContent], Except.error pageValidationMsg)
    | Except.ok content =>
      if thankYouText.all (fun t => strIncludes content t) then
        ([Event.readUrl, Event.readContent], Except.ok true)
      else
        match env.shotValidationFailed with
        | Except.error e =>
          ([Event.readUrl, Event.readContent, Event.screenshot "validation_failed"],
           Except.error e)
        | Except.ok _ =>
          ([Event.readUrl, Event.readContent, Event.screenshot "validation_failed"],
           Except.ok false)

/-! ## Submission (`submitFormAndValidate`, lines 134–154) -/

/-- Embeds `submitFormAndValidate(page, submitButtonSelector, screenshotsDir)`:
the `before_submission` screenshot is awaited *outside* the `try` block, so
its rejection propagates before any click is attempted; inside the `try`,
`retryClick` then `page.waitForNavigation` run, and on a throw the `catch`
takes a `submission_error` screenshot (whose own rejection replaces the
original error) and rethrows; finally the success detector runs. -/
def submitFormAndValidate (env : Env) (sel : String) :
    List Event × Except JsError Bool :=
  match env.shotBefore with
  | Except.error e => ([Event.screenshot "before_submission"], Except.error e)
  | Except.ok _ =>
    let pre := [Event.screenshot "before_submission"]
    let c := retryClick env sel
    match c.2 with
    | Except.error e =>
      match env.shotError with
      | Except.error e2 =>
        (pre ++ c.1 ++ [Event.screenshot "submission_error"], Except.error e2)
      | Except.ok _ =>
        (pre ++ c.1 ++ [Event.screenshot "submission_error"], Except.error e)
    | Except.ok _ =>
      match env.navRes with
      | Except.error e =>
        match env.shotError with
        | Except.error e2 =>
          (pre ++ c.1 ++ [Event.waitForNavigation, Event.screenshot "submission_error"],
           Except.error e2)
        | Except.ok _ =>
          (pre ++ c.1 ++ [Event.waitForNavigation, Event.screenshot "submission_error"],
           Except.error e)
      | Except.ok _ =>
        let v := validateThankYouPageContent env
        (pre ++ c.1 ++ [Event.waitForNavigation] ++ v.1, v.2)

/-! ## Orchestrator (`runAutomation`, lines 219–277) -/

/-- How one run ends. -/
inductive RunOutcome where
  /-- An error reached the `catch` of `runAutomation`: browser closed,
  `process.exit(1)`. -/
  | fatal (e : JsError)
  /-- `validateFormData` returned a nonempty list: the function `return`s. -/
  | validationFailed (errors : List String)
  /-- The run reached the final prompt; `success` is the detector's verdict. -/
  | completed (success : Bool)
  deriving DecidableEq, Repr

/-- Embeds `runAutomation()`, generalised over the `formData` object it builds (the
source hard-codes `edenFormData`).  The trace on the `completed` path
includes the epilogue in which the user presses ENTER and the
`rl.question` callback closes the browser; on the `validationFailed` path
the function returns without ever invoking `browser.close()`. -/
def runAutomationWith (env : Env) (fd : FormData) : List Event × RunOutcome :=
  match env.gotoRes with
  | Except.error e => ([Event.goto formUrl, Event.closeBrowser], RunOutcome.fatal e)
  | Except.ok _ =>
    match env.ensureDirRes with
    | Except.error e =>
      ([Event.goto formUrl, Event.ensureDir "screenshots", Event.closeBrowser],
       RunOutcome.fatal e)
    | Except.ok _ =>
      let pre := [Event.goto formUrl, Event.ensureDir "screenshots"]
      let l := ensureFormLoaded env
      match l.2 with
      | Except.error e => (pre ++ l.1 ++ [Event.closeBrowser], RunOutcome.fatal e)
      | Except.ok _ =>
        let errors := validateFormData fd
        if errors.length > 0 then
          (pre ++ l.1, RunOutcome.validationFailed errors)
        else
          let f := fillFormFields env fd
          match f.2 with
          | Except.error e =>
            (pre ++ l.1 ++ f.1 ++ [Event.closeBrowser], RunOutcome.fatal e)
          | Except.ok _ =>
            match env.selectRes with
            | Except.error e =>
              (pre ++ l.1 ++ f.1 ++
                 [Event.selectOption employeesSel "51-500", Event.closeBrowser],
               RunOutcome.fatal e)
            | Except.ok _ =>
              let s := submitFormAndValidate env submitButtonSel
              match s.2 with
              | Except.error e =>
                (pre ++ l.1 ++ f.1 ++ [Event.selectOption employeesSel "51-500"] ++
                   s.1 ++ [Event.closeBrowser],
                 RunOutcome.fatal e)
              | Except.ok b =>
                (pre ++ l.1 ++ f.1 ++ [Event.selectOption employeesSel "51-500"] ++
                   s.1 ++ [Event.question, Event.closeBrowser],
                 RunOutcome.completed b)

/-! ## Concrete environments for witnesses and counterexamples -/

/-- Every driver call resolves and the post-submission URL contains
`thank-you.html`. -/
def envAllOk : Env where
  gotoRes := Except.ok ()
  ensureDirRes := Except.ok ()
  bodyRes := Except.ok ()
  waitSel := fun _ => Except.ok ()
  typeRes := fun _ => Except.ok ()
  selectRes := Except.ok ()
  submitWait := fun _ => Except.ok ()
  submitClick := fun _ => Except.ok ()
  navRes := Except.ok ()
  shotBefore := Except.ok ()
  shotError := Except.ok ()
  shotValidationFailed := Except.ok ()
  url := "https://testsite.getjones.com/ExampleForm/thank-you.html"
  contentRes := Except.ok "Thank you! You\u0027ll hear from us soon."

/-- Like `envAllOk`, but the URL lacks the success fragment, so the detector
must fall back to the page text (which contains both fragments). -/
def envTextOk : Env :=
  { envAllOk with url := "https://testsite.getjones.com/ExampleForm/" }

/-- Like `envTextOk`, but the page text contains only the first fragment. -/
def envTextMissing : Env :=
  { envTextOk with contentRes := Except.ok "Thank you! Goodbye." }

/-- Like `envTextOk`, but reading the page content rejects. -/
def envContentErr : Env :=
  { envTextOk with contentRes := Except.error "Execution context was destroyed" }

/-- Like `envAllOk`, but the `before_submission` screenshot write rejects. -/
def envShotBeforeFail : Env :=
  { envAllOk with shotBefore := Except.error "EACCES: permission denied" }

/-- Like `envAllOk`, but the submit button never becomes visible: every
visibility wait of `retryClick` times out. -/
def envClickNeverVisible : Env :=
  { envAllOk with submitWait := fun _ => Except.error "TimeoutError: waiting failed" }

/-- Like `envAllOk`, but the visibility wait of `retryClick` times out on
attempts 1 and 2 and resolves from attempt 3 on. -/
def envClickThirdTry : Env :=
  { envAllOk with
      submitWait := fun n =>
        if n ≤ 2 then Except.error "TimeoutError: waiting failed" else Except.ok () }

/-- Variant of `edenFormData` with the email replaced by `"no-at-symbol"` (the spec's
failure scenario). -/
def badEmailFormData : FormData :=
  [(nameSel, "Eden Oved"),
   (emailSel, "no-at-symbol"),
   (phoneSel, "+972 54-324-1555"),
   (companySel, "Jones Software")]

/-- Variant of `edenFormData` with the name entry removed. -/
def missingNameFormData : FormData :=
  [(emailSel, "edenoved.swe@gmail.com"),
   (phoneSel, "+972 54-324-1555"),
   (companySel, "Jones Software")]

/-- Variant of `edenFormData` with a name that starts with a newline: trimming yields
the nonempty string `"Eden Oved"`, yet `/^(?!\s*$).+/` rejects it because
`.` cannot match the leading line terminator. -/
def newlineNameFormData : FormData :=
  [(nameSel, "\nEden Oved"),
   (emailSel, "edenoved.swe@gmail.com"),
   (phoneSel, "+972 54-324-1555"),
   (companySel, "Jones Software")]

/-! ## Helper lemmas -/

/-- Appending an optional singleton in front preserves sublist-ness of the
tail. -/
theorem ite_nil_cons_sublist (b : Bool) (x : α) (l L : List α)
    (h : l.Sublist L) : ((if b then [] else [x]) ++ l).Sublist (x :: L) := by
  cases b
  · simpa using h.cons₂ x
  · simpa using h.cons x

/-- Every event emitted by `waitAll` is a `waitForSelector`, hence not a page
write. -/
theorem waitAll_no_page_write (env : Env) (sels : List String) :
    ((waitAll env sels).1.all fun e => !e.isPageWrite) = true := by
  induction sels with
  | nil => simp [waitAll]
  | cons s rest ih =>
    unfold waitAll
    cases h : env.waitSel s with
    | error e => simp [Event.isPageWrite]
    | ok u => simpa [Event.isPageWrite] using ih

/-- Every event emitted by `ensureFormLoaded` is a `waitForSelector`, hence
not a page write. -/
theorem ensureFormLoaded_no_page_write (env : Env) :
    ((ensureFormLoaded env).1.all fun e => !e.isPageWrite) = true := by
  unfold ensureFormLoaded
  cases h : env.bodyRes with
  | error e => simp [Event.isPageWrite]
  | ok u => simpa [Event.isPageWrite] using waitAll_no_page_write env allSelectors

/-- The spec's validity condition for the name/phone/company fields, taken
from its words: "non-empty after trimming whitespace".  JavaScript's
`String.prototype.trim` strips exactly the `\s` characters from both ends,
so a string is nonempty after trimming iff it contains at least one
non-`\s` character. -/
def specTrimNonEmpty (s : String) : Bool :=
  s.toList.any fun c => !jsRegexWhitespace c

/-- Lemma: `jsNonEmptyTest` holds as soon as the string contains a non-whitespace
character and does not start with a line terminator. -/
theorem jsNonEmptyTest_of_wellformed (s : String)
    (h1 : specTrimNonEmpty s = true)
    (h2 : jsLineTerminator s.toList.headI = false) :
    jsNonEmptyTest s = true := by
  unfold specTrimNonEmpty at h1
  have hall : s.toList.all jsRegexWhitespace = false := by
    rcases List.any_eq_true.mp h1 with ⟨c, hc, hnc⟩
    cases hA : s.toList.all jsRegexWhitespace with
    | false => rfl
    | true =>
      have := List.all_eq_true.mp hA c hc
      simp [this] at hnc
  unfold jsNonEmptyTest
  cases hs : s.toList with
  | nil => rw [hs] at h1; simp at h1
  | cons c t =>
    rw [hs] at hall h2
    simp only [List.headI] at h2
    simp [hall, h2]

/-- A branch of `validateFormData` whose message differs from `x` contributes
no occurrence of `x`. -/
theorem count_ite_nil_single (b : Bool) (m x : String) (h : x ≠ m) :
    ((if b then [] else [m]) : List String).count x = 0 := by
  cases b <;> simp [List.count_eq_zero, h]

/-- A branch of `validateFormData` whose message differs from `x` does not
contain `x`. -/
theorem not_mem_ite_nil_single (b : Bool) (m x : String) (h : x ≠ m) :
    x ∉ ((if b then [] else [m]) : List String) := by
  cases b <;> simp [h]

/-! ## C10 — URL match short-circuits: no content read, no screenshot -/

/-- C10: when the current URL contains the success fragment, the success
detector returns `true` having performed only the URL read: it emits no
`readContent` event and no `screenshot` event. -/
theorem url_match_reads_nothing_writes_nothing (env : Env)
    (h : strIncludes env.url thankYouPage = true) :
    validateThankYouPageContent env = ([Event.readUrl], Except.ok true) ∧
    Event.readContent ∉ (validateThankYouPageContent env).1 ∧
    ∀ tag, Event.screenshot tag ∉ (validateThankYouPageContent env).1 := by
  have he : validateThankYouPageContent env = ([Event.readUrl], Except.ok true) := by
    unfold validateThankYouPageContent
    simp [h]
  exact ⟨he, by simp [he], by simp [he]⟩

/-- Witness for `url_match_reads_nothing_writes_nothing` at `envAllOk`. -/
theorem url_match_reads_nothing_writes_nothing_witness :
    validateThankYouPageContent envAllOk = ([Event.readUrl], Except.ok true) ∧
    Event.readContent ∉ (validateThankYouPageContent envAllOk).1 ∧
    ∀ tag, Event.screenshot tag ∉ (validateThankYouPageContent envAllOk).1 :=
  url_match_reads_nothing_writes_nothing envAllOk (by decide)

/-! ## C3 — the success detector is an ordered two-stage decision -/

/-- C3: the success detector first checks the URL — a match yields `true`
regardless of the page text — and otherwise, when the content read resolves,
returns `true` iff every fragment of `thankYouText` occurs in the text, and
`false` (given the failure screenshot write resolves) when one is missing. -/
theorem detector_two_stage_decision (env : Env) :
    (strIncludes env.url thankYouPage = true →
      (validateThankYouPageContent env).2 = Except.ok true) ∧
    (strIncludes env.url thankYouPage = false →
      ∀ content, env.contentRes = Except.ok content →
        ((thankYouText.all fun t => strIncludes content t) = true →
          (validateThankYouPageContent env).2 = Except.ok true) ∧
        ((thankYouText.all fun t => strIncludes content t) = false →
          env.shotValidationFailed = Except.ok () →
          (validateThankYouPageContent env).2 = Except.ok false)) := by
  constructor
  · intro h
    unfold validateThankYouPageContent
    simp [h]
  · intro h content hc
    constructor
    · intro hall
      unfold validateThankYouPageContent
      simp [h, hc, hall]
    · intro hmiss hshot
      unfold validateThankYouPageContent
      simp [h, hc, hmiss, hshot]

/-- Witness for `detector_two_stage_decision`: the URL stage at `envAllOk`,
the all-fragments stage at `envTextOk`, and the missing-fragment stage at
`envTextMissing`. -/
theorem detector_two_stage_decision_witness :
    (validateThankYouPageContent envAllOk).2 = Except.ok true ∧
    (validateThankYouPageContent envTextOk).2 = Except.ok true ∧
    (validateThankYouPageContent envTextMissing).2 = Except.ok false := by
  refine ⟨(detector_two_stage_decision envAllOk).1 (by decide), ?_, ?_⟩
  · exact (((detector_two_stage_decision envTextOk).2 (by decide) _ rfl).1) (by decide)
  · exact (((detector_two_stage_decision envTextMissing).2 (by decide) _ rfl).2) (by decide) rfl

/-! ## C6 — a failing content read raises a fatal error, never `false` -/

/-- C6: when the URL does not match and reading the page content itself
throws, the success detector throws the fatal wrapped error
(`pageValidationMsg`); in particular it does not return any boolean. -/
theorem content_read_error_is_fatal (env : Env) (e : JsError)
    (hu : strIncludes env.url thankYouPage = false)
    (hc : env.contentRes = Except.error e) :
    (validateThankYouPageContent env).2 = Except.error pageValidationMsg ∧
    ∀ b, (validateThankYouPageContent env).2 ≠ Except.ok b := by
  have he : (validateThankYouPageContent env).2 = Except.error pageValidationMsg := by
    unfold validateThankYouPageContent
    simp [hu, hc]
  exact ⟨he, by simp [he]⟩

/-- Witness for `content_read_error_is_fatal` at `envContentErr`. -/
theorem content_read_error_is_fatal_witness :
    (validateThankYouPageContent envContentErr).2 = Except.error pageValidationMsg ∧
    ∀ b, (validateThankYouPageContent envContentErr).2 ≠ Except.ok b :=
  content_read_error_is_fatal envContentErr "Execution context was destroyed"
    (by decide) rfl

/-! ## C4 — the click-retry policy -/

/-- C4: `retryClick` with the default of 3 retries logs at most 3 attempts
and inserts no delay events between them; it succeeds exactly when one of the
first 3 attempts succeeds; when all 3 attempts fail it makes exactly 3
attempts, emits the final log line carrying the selector and the attempt
count, and rethrows an error; and when only the third attempt succeeds it
succeeds after exactly 3 attempts. -/
theorem retryClick_retry_policy (env : Env) (sel : String) :
    ((retryClick env sel).1.countP Event.isLogAttempt ≤ 3) ∧
    ((retryClick env sel).2 = Except.ok () ↔
      (attemptOk env 1 = true ∨ attemptOk env 2 = true ∨ attemptOk env 3 = true)) ∧
    (attemptOk env 1 = false → attemptOk env 2 = false → attemptOk env 3 = false →
      (retryClick env sel).1.countP Event.isLogAttempt = 3 ∧
      Event.logAllFailed 3 sel ∈ (retryClick env sel).1 ∧
      ∃ e, (retryClick env sel).2 = Except.error e) ∧
    (attemptOk env 1 = false → attemptOk env 2 = false → attemptOk env 3 = true →
      (retryClick env sel).2 = Except.ok () ∧
      (retryClick env sel).1.countP Event.isLogAttempt = 3) := by
  have hr : List.range' 1 3 = [1, 2, 3] := rfl
  rcases hw1 : env.submitWait 1 with e1 | u1 <;>
    rcases hc1 : env.submitClick 1 with f1 | v1 <;>
    rcases hw2 : env.submitWait 2 with e2 | u2 <;>
    rcases hc2 : env.submitClick 2 with f2 | v2 <;>
    rcases hw3 : env.submitWait 3 with e3 | u3 <;>
    rcases hc3 : env.submitClick 3 with f3 | v3 <;>
    simp [retryClick, hr, retryClickGo, attemptOk, hw1, hc1, hw2, hc2, hw3, hc3,
      List.countP_append, List.countP_cons, Event.isLogAttempt]

/-- Witness for `retryClick_retry_policy`: the two scenarios of the spec — a
button that never becomes visible fails after exactly 3 attempts with the
final log line, and one that becomes visible only on the third attempt
succeeds with exactly 3 attempts. -/
theorem retryClick_retry_policy_witness :
    ((retryClick envClickNeverVisible submitButtonSel).1.countP Event.isLogAttempt = 3 ∧
     Event.logAllFailed 3 submitButtonSel ∈ (retryClick envClickNeverVisible submitButtonSel).1 ∧
     ∃ e, (retryClick envClickNeverVisible submitButtonSel).2 = Except.error e) ∧
    ((retryClick envClickThirdTry submitButtonSel).2 = Except.ok () ∧
     (retryClick envClickThirdTry submitButtonSel).1.countP Event.isLogAttempt = 3) :=
  ⟨(retryClick_retry_policy envClickNeverVisible submitButtonSel).2.2.1
      (by decide) (by decide) (by decide),
   (retryClick_retry_policy envClickThirdTry submitButtonSel).2.2.2
      (by decide) (by decide) (by decide)⟩

/-! ## C1 — validation gates every page write -/

/-- C1: if `validateFormData` returns a nonempty error list, the run performs
no page write at all: no `page.type`, no `page.select` and no `page.click`
event appears in its trace (the function returns right after validation). -/
theorem no_page_write_when_validation_fails (env : Env) (fd : FormData)
    (h : validateFormData fd ≠ []) :
    ((runAutomationWith env fd).1.all fun e => !e.isPageWrite) = true := by
  unfold runAutomationWith
  cases hg : env.gotoRes with
  | error e => simp [Event.isPageWrite]
  | ok u =>
    cases hd : env.ensureDirRes with
    | error e => simp [Event.isPageWrite]
    | ok u2 =>
      cases hl : (ensureFormLoaded env).2 with
      | error e =>
        simp only
        rw [hl]
        simpa [Event.isPageWrite] using ensureFormLoaded_no_page_write env
      | ok u3 =>
        simp only
        rw [hl]
        have hlen : (validateFormData fd).length > 0 :=
          List.length_pos.mpr h
        rw [if_pos hlen]
        simpa [Event.isPageWrite] using ensureFormLoaded_no_page_write env

/-- Witness for `no_page_write_when_validation_fails`: the spec's failure
scenario (email `"no-at-symbol"`) in the all-resolving environment. -/
theorem no_page_write_when_validation_fails_witness :
    ((runAutomationWith envAllOk badEmailFormData).1.all fun e => !e.isPageWrite) = true :=
  no_page_write_when_validation_fails envAllOk badEmailFormData (by decide)

/-! ## C5 — the `before` screenshot is not best-effort -/

/-- C5 counterexample: in a run where every driver call resolves except the
`before_submission` screenshot write, the screenshot is reached yet no click
is ever attempted, and the run aborts with the screenshot's error — so a
failing screenshot write does prevent the click. -/
theorem before_screenshot_failure_counterexample :
    Event.screenshot "before_submission" ∈
        (runAutomationWith envShotBeforeFail edenFormData).1 ∧
    ((runAutomationWith envShotBeforeFail edenFormData).1.any Event.isClick) = false ∧
    (runAutomationWith envShotBeforeFail edenFormData).2 =
      RunOutcome.fatal "EACCES: permission denied" := by
  refine ⟨by decide, by decide, by decide⟩

/-- C5 amended: the `before_submission` screenshot is awaited outside the
`try` block of `submitFormAndValidate`, so a failing write propagates as the
function's error and neither the click retry nor anything after it runs. -/
theorem before_screenshot_failure_propagates (env : Env) (sel : String)
    (e : JsError) (h : env.shotBefore = Except.error e) :
    submitFormAndValidate env sel =
      ([Event.screenshot "before_submission"], Except.error e) := by
  unfold submitFormAndValidate
  rw [h]

/-- Witness for `before_screenshot_failure_propagates` at `envShotBeforeFail`. -/
theorem before_screenshot_failure_propagates_witness :
    submitFormAndValidate envShotBeforeFail submitButtonSel =
      ([Event.screenshot "before_submission"],
       Except.error "EACCES: permission denied") :=
  before_screenshot_failure_propagates envShotBeforeFail submitButtonSel
    "EACCES: permission denied" rfl

/-! ## C7 — the browser is not closed on every exit path -/

/-- C7 counterexample: with every driver call resolving and the spec's
invalid form data (email `"no-at-symbol"`), the run ends in
`validationFailed` and its trace contains no `closeBrowser` event: the
early `return` skips the browser release. -/
theorem browser_leak_on_validation_failure_counterexample :
    (runAutomationWith envAllOk badEmailFormData).2 =
      RunOutcome.validationFailed [emailMsg] ∧
    Event.closeBrowser ∉ (runAutomationWith envAllOk badEmailFormData).1 := by
  refine ⟨by decide, by decide⟩

/-- Holds exactly on the `validationFailed` outcome. -/
def RunOutcome.isValidationFailed : RunOutcome → Bool
  | .validationFailed _ => true
  | _ => false

/-- C7 amended: `browser.close()` is invoked on the fatal-error path (the
`catch`) and — once the user acknowledges the prompt — on the completed
path, but not on the validation-failure path: every run that does not end in
`validationFailed` has a `closeBrowser` event in its trace. -/
theorem browser_closed_unless_validation_failed (env : Env) (fd : FormData)
    (h : (runAutomationWith env fd).2.isValidationFailed = false) :
    Event.closeBrowser ∈ (runAutomationWith env fd).1 := by
  rcases hL : ensureFormLoaded env with ⟨levs, lres⟩
  rcases hF : fillFormFields env fd with ⟨fevs, fres⟩
  rcases hS : submitFormAndValidate env submitButtonSel with ⟨sevs, sres⟩
  simp only [runAutomationWith, hL, hF, hS] at h ⊢
  cases hg : env.gotoRes with
  | error e => simp
  | ok u =>
    cases hd : env.ensureDirRes with
    | error e => simp
    | ok u2 =>
      cases lres with
      | error e => simp
      | ok u3 =>
        rw [hg, hd] at h
        simp only at h ⊢
        by_cases hv : (validateFormData fd).length > 0
        · rw [if_pos hv] at h
          simp [RunOutcome.isValidationFailed] at h
        · rw [if_neg hv] at h ⊢
          cases fres with
          | error e => simp
          | ok u4 =>
            cases hs : env.selectRes with
            | error e => simp
            | ok u5 =>
              cases sres with
              | error e => simp
              | ok b => simp

/-- Witness for `browser_closed_unless_validation_failed`: the nominal run
(`envAllOk`, `edenFormData`) closes the browser after the prompt. -/
theorem browser_closed_unless_validation_failed_witness :
    Event.closeBrowser ∈ (runAutomationWith envAllOk edenFormData).1 :=
  browser_closed_unless_validation_failed envAllOk edenFormData (by decide)

/-- The empty `formData` object: every field is missing. -/
def emptyFormData : FormData := []

/-! ## C2 — missing fields are (mostly) not reported -/

/-- C2 counterexample: with the name key absent the validator returns the
empty list — no message attributable to the name — because `undefined`
stringifies to `"undefined"`, which passes the non-empty regexp; and with
every field missing only the email message is produced, not one message per
missing field. -/
theorem missing_fields_unreported_counterexample :
    validateFormData missingNameFormData = [] ∧
    validateFormData emptyFormData = [emailMsg] :=
  ⟨by decide, by decide⟩

/-- C2 amended: reading a missing key yields `undefined`, which the regexp
tests coerce to the string `"undefined"`: the non-empty checks for name,
phone and company therefore pass, so a missing name/phone/company
contributes no message; only a missing email yields its message, exactly
once (and independent failures still accumulate). -/
theorem validateFormData_missing_key_behavior (fd : FormData) :
    (fd.lookup emailSel = none → (validateFormData fd).count emailMsg = 1) ∧
    (fd.lookup nameSel = none → nameMsg ∉ validateFormData fd) ∧
    (fd.lookup phoneSel = none → phoneMsg ∉ validateFormData fd) ∧
    (fd.lookup companySel = none → companyMsg ∉ validateFormData fd) := by
  refine ⟨?_, ?_, ?_, ?_⟩
  · intro h
    have hl : jsLookupStr fd emailSel = "undefined" := by simp [jsLookupStr, h]
    have he : jsEmailTest "undefined" = false := by decide
    have c1 := count_ite_nil_single
      (jsNonEmptyTest (jsLookupStr fd nameSel)) nameMsg emailMsg (by decide)
    have c3 := count_ite_nil_single
      (jsNonEmptyTest (jsLookupStr fd phoneSel)) phoneMsg emailMsg (by decide)
    have c4 := count_ite_nil_single
      (jsNonEmptyTest (jsLookupStr fd companySel)) companyMsg emailMsg (by decide)
    unfold validateFormData
    rw [hl, he]
    simp [List.count_append, c1, c3, c4]
  · intro h
    have hl : jsLookupStr fd nameSel = "undefined" := by simp [jsLookupStr, h]
    have hn : jsNonEmptyTest "undefined" = true := by decide
    have m2 := not_mem_ite_nil_single
      (jsEmailTest (jsLookupStr fd emailSel)) emailMsg nameMsg (by decide)
    have m3 := not_mem_ite_nil_single
      (jsNonEmptyTest (jsLookupStr fd phoneSel)) phoneMsg nameMsg (by decide)
    have m4 := not_mem_ite_nil_single
      (jsNonEmptyTest (jsLookupStr fd companySel)) companyMsg nameMsg (by decide)
    unfold validateFormData
    rw [hl, hn]
    simp [m2, m3, m4]
  · intro h
    have hl : jsLookupStr fd phoneSel = "undefined" := by simp [jsLookupStr, h]
    have hp : jsNonEmptyTest "undefined" = true := by decide
    have m1 := not_mem_ite_nil_single
      (jsNonEmptyTest (jsLookupStr fd nameSel)) nameMsg phoneMsg (by decide)
    have m2 := not_mem_ite_nil_single
      (jsEmailTest (jsLookupStr fd emailSel)) emailMsg phoneMsg (by decide)
    have m4 := not_mem_ite_nil_single
      (jsNonEmptyTest (jsLookupStr fd companySel)) companyMsg phoneMsg (by decide)
    unfold validateFormData
    rw [hl, hp]
    simp [m1, m2, m4]
  · intro h
    have hl : jsLookupStr fd companySel = "undefined" := by simp [jsLookupStr, h]
    have hc : jsNonEmptyTest "undefined" = true := by decide
    have m1 := not_mem_ite_nil_single
      (jsNonEmptyTest (jsLookupStr fd nameSel)) nameMsg companyMsg (by decide)
    have m2 := not_mem_ite_nil_single
      (jsEmailTest (jsLookupStr fd emailSel)) emailMsg companyMsg (by decide)
    have m3 := not_mem_ite_nil_single
      (jsNonEmptyTest (jsLookupStr fd phoneSel)) phoneMsg companyMsg (by decide)
    unfold validateFormData
    rw [hl, hc]
    simp [m1, m2, m3]

/-- Witness for `validateFormData_missing_key_behavior` at `emptyFormData`. -/
theorem validateFormData_missing_key_behavior_witness :
    (validateFormData emptyFormData).count emailMsg = 1 ∧
    nameMsg ∉ validateFormData emptyFormData ∧
    phoneMsg ∉ validateFormData emptyFormData ∧
    companyMsg ∉ validateFormData emptyFormData :=
  ⟨(validateFormData_missing_key_behavior emptyFormData).1 rfl,
   (validateFormData_missing_key_behavior emptyFormData).2.1 rfl,
   (validateFormData_missing_key_behavior emptyFormData).2.2.1 rfl,
   (validateFormData_missing_key_behavior emptyFormData).2.2.2 rfl⟩

/-! ## C8 — trimmed-nonempty fields are not always accepted -/

/-- C8 counterexample: `newlineNameFormData` satisfies the claim's
hypotheses — name, phone and company are nonempty after trimming whitespace
and the email contains `@` — yet the validator reports the name error:
`/^(?!\s*$).+/` rejects `"\nEden Oved"` because `.` cannot match the leading
line terminator. -/
theorem trimmed_nonempty_rejected_counterexample :
    (specTrimNonEmpty "\nEden Oved" = true ∧
     jsEmailTest "edenoved.swe@gmail.com" = true ∧
     specTrimNonEmpty "+972 54-324-1555" = true ∧
     specTrimNonEmpty "Jones Software" = true) ∧
    validateFormData newlineNameFormData = [nameMsg] :=
  ⟨by decide, by decide⟩

/-- C8 amended: the validator returns the empty list for every `formData`
whose name, phone and company values contain a non-whitespace character
*and do not start with a line terminator*, and whose email contains `@`. -/
theorem validateFormData_empty_of_wellformed (fd : FormData)
    (n em ph co : String)
    (h1 : fd.lookup nameSel = some n) (h2 : fd.lookup emailSel = some em)
    (h3 : fd.lookup phoneSel = some ph) (h4 : fd.lookup companySel = some co)
    (g1 : specTrimNonEmpty n = true)
    (g2 : jsLineTerminator n.toList.headI = false)
    (g3 : jsEmailTest em = true)
    (g4 : specTrimNonEmpty ph = true)
    (g5 : jsLineTerminator ph.toList.headI = false)
    (g6 : specTrimNonEmpty co = true)
    (g7 : jsLineTerminator co.toList.headI = false) :
    validateFormData fd = [] := by
  have hn := jsNonEmptyTest_of_wellformed n g1 g2
  have hp := jsNonEmptyTest_of_wellformed ph g4 g5
  have hc := jsNonEmptyTest_of_wellformed co g6 g7
  unfold validateFormData
  simp [jsLookupStr, h1, h2, h3, h4, hn, hp, hc, g3]

/-- Witness for `validateFormData_empty_of_wellformed` at `edenFormData`. -/
theorem validateFormData_empty_of_wellformed_witness :
    validateFormData edenFormData = [] :=
  validateFormData_empty_of_wellformed edenFormData
    "Eden Oved" "edenoved.swe@gmail.com" "+972 54-324-1555" "Jones Software"
    (by decide) (by decide) (by decide) (by decide)
    (by decide) (by decide) (by decide) (by decide) (by decide) (by decide) (by decide)

/-! ## C9 — the validator is a pure total function with well-formed output -/

/-- C9: the validator of the embedding is a total function — defined on
every `formData`, including ones with missing keys — whose result is always
an in-order selection from the four fixed human-readable messages (each
failing rule contributes its message once; nothing else is ever returned,
and no page event is involved in computing it). -/
theorem validateFormData_total_wellformed (fd : FormData) :
    (validateFormData fd).Sublist [nameMsg, emailMsg, phoneMsg, companyMsg] := by
  unfold validateFormData
  refine ite_nil_cons_sublist _ _ _ _
    (ite_nil_cons_sublist _ _ _ _ (ite_nil_cons_sublist _ _ _ _ ?_))
  cases jsNonEmptyTest (jsLookupStr fd companySel) <;> simp

end FormAutomation
